import Mathlib

/-!
Verification of the pgbson document codec and typed-access engine
(src/pgbson.c).

Embedding conventions:

* Machine integers are modelled as Nat/Int with explicit wraparound
  (mod 2 ^ 32 where the C code stores into 32-bit variables).
* A stored BSON document is modelled in two complementary ways, matching
  how the C code touches it:
  - as the raw encoded byte sequence (List Nat) for the operations that
    only look at raw bytes (bson_hash, bson_binary_equal, bson_send,
    bson_recv);
  - as a structured element tree (BsonValue / BsonFields / BsonElems)
    for the path-resolving typed accessors, which in the C code walk the
    bytes through libbson iterators.
* Functions of libbson and of the PostgreSQL host that are not part of
  this repository (iterator initialisation and descent, bson_equal,
  bson_compare, the JSON parser, gmtime, tm2timestamp, numeric_in,
  bson_decimal128_to_string) are modelled from the specification; each
  such definition carries a doc comment starting with
  "Modelled from the spec:".
* Fallible PostgreSQL functions (those that may ereport an ERROR) return
  Except PgError; an absent SQL value (PG_RETURN_NULL) is Option.none.
-/

/-- C truncating division of a signed value by a positive constant, as
performed by the expression millis_since_epoch/1000 in
_cvt_datetime_to_ts: the quotient is rounded toward zero. -/
def c_quot (m : Int) (d : Nat) : Int :=
  if 0 ≤ m then ((m.toNat / d : Nat) : Int) else -(((-m).toNat / d : Nat) : Int)

/-- C remainder paired with c_quot (sign follows the dividend), as
performed by millis_since_epoch%1000. -/
def c_rem (m : Int) (d : Nat) : Int := m - d * c_quot m d

/-- Reinterpretation of a Nat as a two's-complement signed 32-bit value,
as happens when the C code stores an unsigned 32-bit quantity into the
int32 fsec_t. -/
def int32OfNat (n : Nat) : Int :=
  if n % 4294967296 < 2147483648 then ((n % 4294967296 : Nat) : Int)
  else ((n % 4294967296 : Nat) : Int) - 4294967296

/-- Conversion of a signed value to unsigned 32-bit, as happens when the
C code stores an int64 expression into the variable
"unsigned t_ms": the value is reduced mod 2 ^ 32. -/
def uint32OfInt (i : Int) : Nat := (i % 4294967296).toNat

mutual
/-- Structured view of a BSON document: the element tree that the libbson
iterators expose over the encoded bytes.  Only the types reachable by the
typed accessor surface of pgbson.c are listed (spec section 3); a double
is carried as a rational stand-in for its numeric value and a decimal128
as its decoded sign/coefficient/exponent triple. -/
inductive BsonValue : Type where
  | double (v : Rat)
  | utf8 (s : String)
  | document (fs : BsonFields)
  | array (es : BsonElems)
  | binary (subtype : Nat) (payload : List Nat)
  | datetime (millis : Int)
  | int32 (v : Int)
  | int64 (v : Int)
  | decimal128 (sign : Bool) (coeff : Nat) (exp : Int)
inductive BsonFields : Type where
  | nil
  | cons (k : String) (v : BsonValue) (rest : BsonFields)
inductive BsonElems : Type where
  | nil
  | cons (v : BsonValue) (rest : BsonElems)
end

/-- BSON type tag of an element, with the numeric values of bson_type_t
(BSON_TYPE_DOUBLE = 0x01, BSON_TYPE_UTF8 = 0x02, and so on), as returned
by bson_iter_type. -/
def tagOf : BsonValue → Nat
  | .double _ => 1
  | .utf8 _ => 2
  | .document _ => 3
  | .array _ => 4
  | .binary _ _ => 5
  | .datetime _ => 9
  | .int32 _ => 16
  | .int64 _ => 18
  | .decimal128 _ _ _ => 19

/-- Modelled from the spec: the path resolver (libbson
bson_iter_find_descendant, not in src/) splits the dotted path on the
dot character; this is the splitting step (spec section 4.2). -/
def splitSegs : List Char → List (List Char)
  | [] => [[]]
  | c :: rest =>
    if c = '.' then [] :: splitSegs rest
    else
      match splitSegs rest with
      | s :: ss => (c :: s) :: ss
      | [] => [[c]]

/-- Dotted path split into its key segments. -/
def splitPath (s : String) : List String :=
  (splitSegs s.data).map (fun l => String.mk l)

/-- Scan of one document level for a matching key, in encoded order
(spec section 4.2: lookup is keyed, first match wins). -/
def findKey (k : String) : BsonFields → Option BsonValue
  | .nil => none
  | .cons k2 v rest => if k2 = k then some v else findKey k rest

/-- Array levels expose their elements under the decimal string
representation of the positional index ("0", "1", ...), exactly as the
BSON encoding stores them (spec section 3). -/
def elemsToFields (i : Nat) : BsonElems → BsonFields
  | .nil => .nil
  | .cons v rest => .cons (toString i) v (elemsToFields (i + 1) rest)

/-- Modelled from the spec: the walk of bson_iter_find_descendant
(libbson, not in src/), spec section 4.2: for each segment scan the
current level for a matching key; descend into Document or Array
matches while segments remain; a match on the last segment is the
result; anything else is NotFound. -/
def findDescendant (fs : BsonFields) : List String → Option BsonValue
  | [] => none
  | [s] => findKey s fs
  | s :: rest =>
    match findKey s fs with
    | some (.document fs2) => findDescendant fs2 rest
    | some (.array es) => findDescendant (elemsToFields 0 es) rest
    | _ => none

/-- Full path resolution: split the dotted path, then walk. -/
def resolve (fs : BsonFields) (dotpath : String) : Option BsonValue :=
  findDescendant fs (splitPath dotpath)

/-- Error categories raised via ereport in pgbson.c:
ERRCODE_INVALID_BINARY_REPRESENTATION and ERRCODE_INVALID_JSON_TEXT. -/
inductive ErrCode : Type where
  | invalid_binary_representation
  | invalid_json_text
deriving DecidableEq

/-- An ereport ERROR: its errcode category and errmsg text. -/
structure PgError : Type where
  code : ErrCode
  msg : String
deriving DecidableEq

/-- The error raised when bson_iter_init fails on the stored bytes. -/
def corruptedError : PgError :=
  { code := .invalid_binary_representation, msg := "BSON bytes corrupted" }

/-- A stored bytea argument as seen through bson_init_static and
bson_iter_init.  Modelled from the spec: the structural validation
performed by libbson (not in src/) either accepts the buffer, exposing
its element tree, or rejects it (spec section 4.1). -/
inductive BsonBuf : Type where
  | corrupt
  | valid (fs : BsonFields)

/-- Outcome of bson_new_from_json on the input text.  Modelled from the
spec: the extended-JSON parser (libbson, not in src/) either produces a
document or fails with its own diagnostic message (spec section 4.4). -/
inductive ParseOutcome : Type where
  | ok (d : BsonFields)
  | fail (msg : String)

/-- Translation of bson_in: a successful parse is palloc-copied and
returned; a failed parse raises ERRCODE_INVALID_JSON_TEXT carrying
err.message verbatim. -/
def bson_in : ParseOutcome → Except PgError BsonFields
  | .ok d => .ok d
  | .fail m => .error { code := .invalid_json_text, msg := m }

/-- Decimal digits of n, least significant first, computed with the
division loop n, n/10, n/100, ...; the first argument is fuel that makes
the recursion structural (any fuel at least n gives the full digit
list). -/
def digitsRevFuel : Nat → Nat → List Char
  | 0, _ => []
  | _ + 1, 0 => []
  | fuel + 1, n + 1 => Nat.digitChar ((n + 1) % 10) :: digitsRevFuel fuel ((n + 1) / 10)

/-- Decimal digit characters of n, most significant first; 0 prints as
"0". -/
def natChars (n : Nat) : List Char :=
  if n = 0 then ['0'] else (digitsRevFuel n n).reverse

/-- Modelled from the spec: bson_decimal128_to_string (libbson, not in
src/) renders the decoded decimal128 value (sign, coefficient, exponent)
as its canonical decimal string, bounded to 43 characters including the
C string terminator (spec section 4.3); modelled in canonical scientific
form sign, coefficient digits, exponent marker, exponent sign, exponent
digits. -/
def bson_decimal128_to_string (sign : Bool) (coeff : Nat) (exp : Int) : String :=
  String.mk ((if sign then ['-'] else []) ++ natChars coeff ++ ['E'] ++
    (if exp < 0 then ['-'] else ['+']) ++ natChars exp.natAbs)

/-- Modelled from the spec: the host arbitrary-precision numeric type
(out of scope, spec section 1); kept abstract as the image of the
numeric_in decoder. -/
structure Numeric : Type where
  decodedFrom : String
deriving DecidableEq

/-- Modelled from the spec: numeric_in, the host string-to-numeric
decoder (PostgreSQL, not in src/), modelled as an abstract injection of
its input string. -/
def numeric_in (s : String) : Numeric := ⟨s⟩

/-- Translation of _cvt_datetime_to_ts.  Line by line from the source:
t_unix is millis/1000 with C truncating division; t_ms is millis%1000
stored into an unsigned 32-bit variable; the gmtime decomposition of
t_unix into a calendar date and time of day and its recomposition by
tm2timestamp are external collaborators modelled from the spec as
floor-division calendar decomposition (days since the Unix epoch plus
seconds within the day; the year/month/day split round-trips through
date2j and is elided); fsec is t_ms*1000 in unsigned 32-bit arithmetic
stored into the int32 fsec_t; the result is the PostgreSQL timestamp in
microseconds relative to 2000-01-01 (10957 days after the Unix
epoch). -/
def _cvt_datetime_to_ts (millis_since_epoch : Int) : Int :=
  let t_unix : Int := c_quot millis_since_epoch 1000
  let t_ms : Nat := uint32OfInt (c_rem millis_since_epoch 1000)
  let days : Int := t_unix / 86400
  let tod : Int := t_unix % 86400
  let fsec : Int := int32OfNat (t_ms * 1000)
  (days - 10957) * 86400000000 + tod * 1000000 + fsec

/-- Translation of _get_bson_iter: a buffer failing bson_iter_init
raises ERRCODE_INVALID_BINARY_REPRESENTATION; otherwise the dotted path
is resolved with bson_iter_find_descendant and the found element's type
tag is compared with the requested one; no element, or the wrong tag,
gives rc false (an absent result), never an error. -/
def _get_bson_iter (buf : BsonBuf) (dotpath : String) (tt : Nat) :
    Except PgError (Option BsonValue) :=
  match buf with
  | .corrupt => .error corruptedError
  | .valid fs =>
    match resolve fs dotpath with
    | some target => if tagOf target = tt then .ok (some target) else .ok none
    | none => .ok none

/-- Translation of bson_get_string (requested tag BSON_TYPE_UTF8). -/
def bson_get_string (buf : BsonBuf) (dotpath : String) :
    Except PgError (Option String) :=
  match _get_bson_iter buf dotpath 2 with
  | .error e => .error e
  | .ok none => .ok none
  | .ok (some target) =>
    match target with
    | .utf8 s => .ok (some s)
    | _ => .ok none

/-- Translation of bson_get_double (requested tag BSON_TYPE_DOUBLE). -/
def bson_get_double (buf : BsonBuf) (dotpath : String) :
    Except PgError (Option Rat) :=
  match _get_bson_iter buf dotpath 1 with
  | .error e => .error e
  | .ok none => .ok none
  | .ok (some target) =>
    match target with
    | .double v => .ok (some v)
    | _ => .ok none

/-- Translation of bson_get_int32 (requested tag BSON_TYPE_INT32). -/
def bson_get_int32 (buf : BsonBuf) (dotpath : String) :
    Except PgError (Option Int) :=
  match _get_bson_iter buf dotpath 16 with
  | .error e => .error e
  | .ok none => .ok none
  | .ok (some target) =>
    match target with
    | .int32 v => .ok (some v)
    | _ => .ok none

/-- Translation of bson_get_int64 (requested tag BSON_TYPE_INT64). -/
def bson_get_int64 (buf : BsonBuf) (dotpath : String) :
    Except PgError (Option Int) :=
  match _get_bson_iter buf dotpath 18 with
  | .error e => .error e
  | .ok none => .ok none
  | .ok (some target) =>
    match target with
    | .int64 v => .ok (some v)
    | _ => .ok none

/-- Translation of bson_get_datetime (requested tag BSON_TYPE_DATE_TIME):
the milliseconds payload is converted with _cvt_datetime_to_ts. -/
def bson_get_datetime (buf : BsonBuf) (dotpath : String) :
    Except PgError (Option Int) :=
  match _get_bson_iter buf dotpath 9 with
  | .error e => .error e
  | .ok none => .ok none
  | .ok (some target) =>
    match target with
    | .datetime millis => .ok (some (_cvt_datetime_to_ts millis))
    | _ => .ok none

/-- Translation of bson_get_decimal128 (requested tag
BSON_TYPE_DECIMAL128): the value is rendered to its canonical decimal
string with bson_decimal128_to_string and that string is handed to
numeric_in. -/
def bson_get_decimal128 (buf : BsonBuf) (dotpath : String) :
    Except PgError (Option Numeric) :=
  match _get_bson_iter buf dotpath 19 with
  | .error e => .error e
  | .ok none => .ok none
  | .ok (some target) =>
    match target with
    | .decimal128 sg c e =>
      .ok (some (numeric_in (bson_decimal128_to_string sg c e)))
    | _ => .ok none

/-- Translation of bson_get_binary (requested tag BSON_TYPE_BINARY): the
payload bytes are copied out; the subtype read by bson_iter_binary is
dropped ("What to do with subtype?" in the source). -/
def bson_get_binary (buf : BsonBuf) (dotpath : String) :
    Except PgError (Option (List Nat)) :=
  match _get_bson_iter buf dotpath 5 with
  | .error e => .error e
  | .ok none => .ok none
  | .ok (some target) =>
    match target with
    | .binary _ payload => .ok (some payload)
    | _ => .ok none

/-- Translation of bson_get_bson: its own iterator init and descendant
walk, then a switch on the element type: a Document yields its embedded
subdocument, an Array yields its embedded array document (index-keyed),
every other tag leaves subdoc_data at 0 and falls through to SQL
NULL. -/
def bson_get_bson (buf : BsonBuf) (dotpath : String) :
    Except PgError (Option BsonFields) :=
  match buf with
  | .corrupt => .error corruptedError
  | .valid fs =>
    match resolve fs dotpath with
    | some (.document fs2) => .ok (some fs2)
    | some (.array es) => .ok (some (elemsToFields 0 es))
    | some _ => .ok none
    | none => .ok none

/-- Truth of "this call did not raise": the call returned a value (which
may still be SQL NULL) rather than an ereport ERROR. -/
def notError {α : Type} : Except PgError α → Bool
  | .ok _ => true
  | .error _ => false

/-- Translation of bson_hash: hash starts at 5381 and every raw byte of
the stored document feeds hash = ((hash << 5) + hash) + c in 32-bit
arithmetic (the C variable is a 32-bit int; the Nat value mod 2 ^ 32 is
its bit pattern). -/
def bson_hash (data : List Nat) : Nat :=
  data.foldl (fun hash c => (((hash <<< 5) % 4294967296) + hash + c) % 4294967296) 5381

/-- Claim-side definition, following the words of the spec: the 32-bit
polynomial rolling hash with seed 5381 and multiplier 33 over the raw
bytes in order. -/
def rollingHash33 (data : List Nat) : Nat :=
  data.foldl (fun h c => (h * 33 + c) % 4294967296) 5381

/-- Modelled from the spec: bson_equal (libbson, not in src/) as invoked
by bson_binary_equal is byte-for-byte equality of the two encoded
documents (spec section 4.5). -/
def bson_binary_equal (a b : List Nat) : Bool := a == b

/-- Little-endian 32-bit value of the first four bytes of a buffer (the
length header of an encoded document). -/
def le32 : List Nat → Nat
  | b0 :: b1 :: b2 :: b3 :: _ => b0 + 256 * (b1 + 256 * (b2 + 256 * b3))
  | _ => 0

/-- Modelled from the spec: the validation of bson_init_static (libbson,
not in src/): the declared internal length (the little-endian 32-bit
header) must be consistent with the given buffer length, with 5 bytes
the minimum encoded document (spec section 4.1). -/
def bson_init_static_ok (data : List Nat) (len : Nat) : Bool :=
  decide (5 ≤ len) && (le32 data == len)

/-- A StringInfo as handed to a binary-receive function: data points at
the received wire bytes and len is their count.  The field rep models
the bytes at the struct's own address (its in-memory representation,
which begins with the machine representation of the data pointer); their
values depend on the platform and the allocation address, so they are
carried as an arbitrary list. -/
structure StringInfoData : Type where
  data : List Nat
  len : Nat
  rep : List Nat

/-- Translation of bson_recv as written: the source passes
(const uint8_t*) buf - the address of the StringInfoData struct itself,
not buf->data - to bson_init_static together with buf->len, so
validation and the subsequent copy read the struct's own representation
bytes.  A failed (unchecked) init leaves the stack bson_t uninitialised
and the copy undefined, modelled as none. -/
def bson_recv (buf : StringInfoData) : Option (List Nat) :=
  if bson_init_static_ok buf.rep buf.len then some (buf.rep.take buf.len) else none

/-- Translation of bson_send: pq_sendbytes appends exactly the stored
document bytes to the type-send buffer, so beyond the transport's own
header the emitted payload is the stored encoding unchanged. -/
def bson_send (stored : List Nat) : List Nat := stored

/-- Three-way comparison of two integers. -/
def icmp (a b : Int) : Ordering :=
  if a < b then .lt else if b < a then .gt else .eq

/-- Lexicographic three-way comparison of two integer sequences. -/
def lexCmp : List Int → List Int → Ordering
  | [], [] => .eq
  | [], _ :: _ => .lt
  | _ :: _, [] => .gt
  | a :: as, b :: bs =>
    match icmp a b with
    | .eq => lexCmp as bs
    | o => o

mutual
/-- Token stream of a document for comparison, mirroring the encoded
order: each element contributes its type tag, then its key characters
with a terminator, then its value payload (recursing into embedded
documents and arrays), and each level ends with a terminator token. -/
def encV : BsonValue → List Int
  | .double q => [q.num, (q.den : Int)]
  | .utf8 s => (s.data.map (fun c => (c.toNat : Int))) ++ [-1]
  | .document fs => encF fs
  | .array es => encA 0 es
  | .binary st pl => (st : Int) :: (pl.map (fun b => (b : Int))) ++ [-1]
  | .datetime m => [m]
  | .int32 v => [v]
  | .int64 v => [v]
  | .decimal128 sg c e => [if sg then 1 else 0, (c : Int), e]
def encF : BsonFields → List Int
  | .nil => [0]
  | .cons k v rest =>
    (tagOf v : Int) :: (k.data.map (fun c => (c.toNat : Int))) ++ [-1] ++ encV v ++ encF rest
def encA : Nat → BsonElems → List Int
  | _, .nil => [0]
  | i, .cons v rest =>
    (tagOf v : Int) :: ((toString i).data.map (fun c => (c.toNat : Int))) ++ [-1] ++ encV v ++ encA (i + 1) rest
end

/-- Modelled from the spec: bson_compare (libbson, not in src/), spec
section 4.5: a deterministic total order over documents, proceeding
element by element in encoded order, with the type tag as the primary
sort key of each element and recursion into nested documents and
arrays; realised as lexicographic comparison of the element token
streams. -/
def bson_compare (a b : BsonFields) : Ordering :=
  lexCmp (encF a) (encF b)

/-- Translation of pgbson_compare: both stored documents are set into
place and the result of bson_compare is returned (its sign is the
three-way answer; equal is the zero, here Ordering.eq). -/
def pgbson_compare (a b : BsonFields) : Ordering :=
  bson_compare a b

/-- Example document with an int32 field and a string field. -/
def exDoc : BsonFields := .cons "a" (.int32 7) (.cons "s" (.utf8 "x") .nil)

/-- Example document with a pre-epoch DateTime field. -/
def exDt : BsonFields := .cons "d" (.datetime (-500)) .nil

/-- Example document with a Binary field of subtype 0. -/
def exBin0 : BsonFields := .cons "b" (.binary 0 [1, 2, 3]) .nil

/-- Example document with the same Binary payload under subtype 4. -/
def exBin4 : BsonFields := .cons "b" (.binary 4 [1, 2, 3]) .nil

/-- Example document with a Decimal128 field holding -1.5. -/
def exDec : BsonFields := .cons "n" (.decimal128 true 15 (-1)) .nil

/-- Example document with an embedded document and an embedded array. -/
def exSub : BsonFields :=
  .cons "o" (.document (.cons "i" (.int32 1) .nil))
    (.cons "arr" (.array (.cons (.int32 10) (.cons (.int32 20) .nil))) .nil)

/-- Example document whose single element has type tag 2 (string). -/
def cmpA : BsonFields := .cons "k" (.utf8 "a") .nil

/-- Example document whose single element has type tag 3 (document). -/
def cmpB : BsonFields := .cons "k" (.document .nil) .nil

/-- Example document whose single element has type tag 4 (array). -/
def cmpC : BsonFields := .cons "k" (.array .nil) .nil

/-- Helper for the hash theorems: the per-byte step of bson_hash agrees
with multiplication by 33 from any starting accumulator. -/
theorem bson_hash_go (bs : List Nat) : ∀ h : Nat,
    List.foldl (fun hash c => (((hash <<< 5) % 4294967296) + hash + c) % 4294967296) h bs =
    List.foldl (fun x c => (x * 33 + c) % 4294967296) h bs := by
  induction bs with
  | nil => intro h; rfl
  | cons c cs ih =>
    intro h
    simp only [List.foldl]
    have hstep : (((h <<< 5) % 4294967296) + h + c) % 4294967296 = (h * 33 + c) % 4294967296 := by
      have h32 : h <<< 5 = h * 32 := by
        rw [Nat.shiftLeft_eq]
      rw [h32]
      omega
    rw [hstep]
    exact ih _

/-- C5: bson_hash is the 32-bit polynomial rolling hash with seed 5381
and multiplier 33 (with 32-bit wraparound) over every raw byte of the
encoded document, in order. -/
theorem bson_hash_is_rolling_poly33 (data : List Nat) :
    bson_hash data = rollingHash33 data := by
  unfold bson_hash rollingHash33
  exact bson_hash_go data 5381

/-- C4: byte-for-byte equality of two encoded documents implies their
hashes agree. -/
theorem binary_equal_implies_hash_equal (a b : List Nat)
    (h : bson_binary_equal a b = true) : bson_hash a = bson_hash b := by
  have hab : a = b := by simpa [bson_binary_equal] using h
  rw [hab]

/-- Witness for C4 at the five-byte empty document. -/
theorem binary_equal_implies_hash_equal_witness :
    bson_hash [5, 0, 0, 0, 0] = bson_hash [5, 0, 0, 0, 0] :=
  binary_equal_implies_hash_equal [5, 0, 0, 0, 0] [5, 0, 0, 0, 0] (by decide)

/-- C2: for every signed 64-bit millisecond value, the produced
timestamp is exactly the one obtained by floor-division of the
milliseconds into whole seconds with a non-negative microsecond
remainder (for the positive divisor 1000, Int division / and remainder %
are floor division and its non-negative remainder), both for the raw
conversion and through bson_get_datetime; the C truncating division and
the unsigned wraparound of the negative remainder cancel exactly. -/
theorem get_datetime_floor_division (m : Int)
    (h1 : -(2 ^ 63) ≤ m) (h2 : m < 2 ^ 63) :
    _cvt_datetime_to_ts m =
      (m / 1000 - 946684800) * 1000000 + (m % 1000) * 1000 ∧
    (∀ (fs : BsonFields) (dotpath : String),
      resolve fs dotpath = some (.datetime m) →
      bson_get_datetime (.valid fs) dotpath =
        .ok (some ((m / 1000 - 946684800) * 1000000 + (m % 1000) * 1000))) := by
  have key : _cvt_datetime_to_ts m =
      (m / 1000 - 946684800) * 1000000 + (m % 1000) * 1000 := by
    simp only [_cvt_datetime_to_ts, c_quot, c_rem, int32OfNat, uint32OfInt]
    split_ifs <;> omega
  refine ⟨key, fun fs dotpath h => ?_⟩
  simp [bson_get_datetime, _get_bson_iter, h, tagOf, key]

/-- Witness for C2 at -500 milliseconds: one second before the Unix
epoch plus a positive 500000-microsecond remainder (the Unix epoch is
-946684800 seconds relative to the PostgreSQL epoch). -/
theorem get_datetime_floor_division_witness :
    bson_get_datetime (.valid exDt) "d" =
      .ok (some (((-500 : Int) / 1000 - 946684800) * 1000000 + ((-500 : Int) % 1000) * 1000)) ∧
    ((-500 : Int) / 1000 - 946684800) * 1000000 + ((-500 : Int) % 1000) * 1000 =
      (-1 - 946684800) * 1000000 + 500000 :=
  ⟨(get_datetime_floor_division (-500) (by decide) (by decide)).2 exDt "d" rfl, by decide⟩

/-- C6 evaluation: the stored result of bson_recv is a function of the
struct representation bytes and the length alone; the received data
bytes never influence it, because the source passes the struct address
instead of the data pointer to bson_init_static. -/
theorem bson_recv_ignores_received_bytes (b1 b2 : StringInfoData)
    (hrep : b1.rep = b2.rep) (hlen : b1.len = b2.len) :
    bson_recv b1 = bson_recv b2 := by
  simp [bson_recv, hrep, hlen]

/-- Witness for C6: two receives whose wire bytes differ (one of them
the valid five-byte empty document) store the same result. -/
theorem bson_recv_ignores_received_bytes_witness :
    bson_recv { data := [5, 0, 0, 0, 0], len := 5, rep := [0, 0, 0, 0, 0] } =
    bson_recv { data := [9, 9, 9, 9, 9], len := 5, rep := [0, 0, 0, 0, 0] } :=
  bson_recv_ignores_received_bytes _ _ rfl rfl

/-- Helper: on a buffer accepted by bson_iter_init, _get_bson_iter never
raises; it returns some optional element. -/
theorem gbi_valid (fs : BsonFields) (dotpath : String) (tt : Nat) :
    ∃ o, _get_bson_iter (.valid fs) dotpath tt = .ok o := by
  rcases h : resolve fs dotpath with _ | v <;> simp only [_get_bson_iter, h]
  · exact ⟨none, rfl⟩
  · split_ifs <;> exact ⟨_, rfl⟩

/-- Helper: bson_get_string never raises on an accepted buffer. -/
theorem notError_get_string (fs : BsonFields) (dotpath : String) :
    notError (bson_get_string (.valid fs) dotpath) = true := by
  obtain ⟨o, ho⟩ := gbi_valid fs dotpath 2
  unfold bson_get_string
  rw [ho]
  rcases o with _ | v
  · rfl
  · cases v <;> rfl

/-- Helper: bson_get_double never raises on an accepted buffer. -/
theorem notError_get_double (fs : BsonFields) (dotpath : String) :
    notError (bson_get_double (.valid fs) dotpath) = true := by
  obtain ⟨o, ho⟩ := gbi_valid fs dotpath 1
  unfold bson_get_double
  rw [ho]
  rcases o with _ | v
  · rfl
  · cases v <;> rfl

/-- Helper: bson_get_int32 never raises on an accepted buffer. -/
theorem notError_get_int32 (fs : BsonFields) (dotpath : String) :
    notError (bson_get_int32 (.valid fs) dotpath) = true := by
  obtain ⟨o, ho⟩ := gbi_valid fs dotpath 16
  unfold bson_get_int32
  rw [ho]
  rcases o with _ | v
  · rfl
  · cases v <;> rfl

/-- Helper: bson_get_int64 never raises on an accepted buffer. -/
theorem notError_get_int64 (fs : BsonFields) (dotpath : String) :
    notError (bson_get_int64 (.valid fs) dotpath) = true := by
  obtain ⟨o, ho⟩ := gbi_valid fs dotpath 18
  unfold bson_get_int64
  rw [ho]
  rcases o with _ | v
  · rfl
  · cases v <;> rfl

/-- Helper: bson_get_datetime never raises on an accepted buffer. -/
theorem notError_get_datetime (fs : BsonFields) (dotpath : String) :
    notError (bson_get_datetime (.valid fs) dotpath) = true := by
  obtain ⟨o, ho⟩ := gbi_valid fs dotpath 9
  unfold bson_get_datetime
  rw [ho]
  rcases o with _ | v
  · rfl
  · cases v <;> rfl

/-- Helper: bson_get_decimal128 never raises on an accepted buffer. -/
theorem notError_get_decimal128 (fs : BsonFields) (dotpath : String) :
    notError (bson_get_decimal128 (.valid fs) dotpath) = true := by
  obtain ⟨o, ho⟩ := gbi_valid fs dotpath 19
  unfold bson_get_decimal128
  rw [ho]
  rcases o with _ | v
  · rfl
  · cases v <;> rfl

/-- Helper: bson_get_binary never raises on an accepted buffer. -/
theorem notError_get_binary (fs : BsonFields) (dotpath : String) :
    notError (bson_get_binary (.valid fs) dotpath) = true := by
  obtain ⟨o, ho⟩ := gbi_valid fs dotpath 5
  unfold bson_get_binary
  rw [ho]
  rcases o with _ | v
  · rfl
  · cases v <;> rfl

/-- Helper: bson_get_bson never raises on an accepted buffer. -/
theorem notError_get_bson (fs : BsonFields) (dotpath : String) :
    notError (bson_get_bson (.valid fs) dotpath) = true := by
  unfold bson_get_bson
  rcases h : resolve fs dotpath with _ | v <;> simp only [h]
  · rfl
  · cases v <;> rfl

/-- C3: exactly two conditions raise a hard error.  Every accessor on a
buffer rejected by bson_iter_init raises the
invalid-binary-representation error (and nothing is recovered), while on
an accepted buffer no accessor ever raises; bson_in raises the
invalid-JSON-text error carrying the parser diagnostic verbatim exactly
on a failed parse, and never on a successful one. -/
theorem error_surface_two_conditions (fs : BsonFields) (dotpath : String)
    (msg : String) (d : BsonFields) :
    (bson_get_string .corrupt dotpath =
        .error { code := .invalid_binary_representation, msg := "BSON bytes corrupted" } ∧
      bson_get_double .corrupt dotpath =
        .error { code := .invalid_binary_representation, msg := "BSON bytes corrupted" } ∧
      bson_get_int32 .corrupt dotpath =
        .error { code := .invalid_binary_representation, msg := "BSON bytes corrupted" } ∧
      bson_get_int64 .corrupt dotpath =
        .error { code := .invalid_binary_representation, msg := "BSON bytes corrupted" } ∧
      bson_get_datetime .corrupt dotpath =
        .error { code := .invalid_binary_representation, msg := "BSON bytes corrupted" } ∧
      bson_get_decimal128 .corrupt dotpath =
        .error { code := .invalid_binary_representation, msg := "BSON bytes corrupted" } ∧
      bson_get_binary .corrupt dotpath =
        .error { code := .invalid_binary_representation, msg := "BSON bytes corrupted" } ∧
      bson_get_bson .corrupt dotpath =
        .error { code := .invalid_binary_representation, msg := "BSON bytes corrupted" }) ∧
    (notError (bson_get_string (.valid fs) dotpath) = true ∧
      notError (bson_get_double (.valid fs) dotpath) = true ∧
      notError (bson_get_int32 (.valid fs) dotpath) = true ∧
      notError (bson_get_int64 (.valid fs) dotpath) = true ∧
      notError (bson_get_datetime (.valid fs) dotpath) = true ∧
      notError (bson_get_decimal128 (.valid fs) dotpath) = true ∧
      notError (bson_get_binary (.valid fs) dotpath) = true ∧
      notError (bson_get_bson (.valid fs) dotpath) = true) ∧
    bson_in (.fail msg) = .error { code := .invalid_json_text, msg := msg } ∧
    bson_in (.ok d) = .ok d := by
  refine ⟨⟨rfl, rfl, rfl, rfl, rfl, rfl, rfl, rfl⟩, ⟨?_, ?_, ?_, ?_, ?_, ?_, ?_, ?_⟩, rfl, rfl⟩
  · exact notError_get_string fs dotpath
  · exact notError_get_double fs dotpath
  · exact notError_get_int32 fs dotpath
  · exact notError_get_int64 fs dotpath
  · exact notError_get_datetime fs dotpath
  · exact notError_get_decimal128 fs dotpath
  · exact notError_get_binary fs dotpath
  · exact notError_get_bson fs dotpath

/-- C1: every typed accessor answers SQL NULL, not an error, whenever
the dotted path does not resolve, or resolves to an element whose type
tag differs from the accessor's requested tag (UTF8 = 2, INT32 = 16,
INT64 = 18, DOUBLE = 1, DECIMAL128 = 19, DATE_TIME = 9, BINARY = 5). -/
theorem typed_accessors_absent (fs : BsonFields) (dotpath : String) (v : BsonValue) :
    (resolve fs dotpath = none →
      bson_get_string (.valid fs) dotpath = .ok none ∧
      bson_get_int32 (.valid fs) dotpath = .ok none ∧
      bson_get_int64 (.valid fs) dotpath = .ok none ∧
      bson_get_double (.valid fs) dotpath = .ok none ∧
      bson_get_decimal128 (.valid fs) dotpath = .ok none ∧
      bson_get_datetime (.valid fs) dotpath = .ok none ∧
      bson_get_binary (.valid fs) dotpath = .ok none) ∧
    (resolve fs dotpath = some v →
      (tagOf v ≠ 2 → bson_get_string (.valid fs) dotpath = .ok none) ∧
      (tagOf v ≠ 16 → bson_get_int32 (.valid fs) dotpath = .ok none) ∧
      (tagOf v ≠ 18 → bson_get_int64 (.valid fs) dotpath = .ok none) ∧
      (tagOf v ≠ 1 → bson_get_double (.valid fs) dotpath = .ok none) ∧
      (tagOf v ≠ 19 → bson_get_decimal128 (.valid fs) dotpath = .ok none) ∧
      (tagOf v ≠ 9 → bson_get_datetime (.valid fs) dotpath = .ok none) ∧
      (tagOf v ≠ 5 → bson_get_binary (.valid fs) dotpath = .ok none)) := by
  constructor
  · intro h
    refine ⟨?_, ?_, ?_, ?_, ?_, ?_, ?_⟩ <;>
      simp [bson_get_string, bson_get_int32, bson_get_int64, bson_get_double,
        bson_get_decimal128, bson_get_datetime, bson_get_binary, _get_bson_iter, h]
  · intro h
    refine ⟨fun ht => ?_, fun ht => ?_, fun ht => ?_, fun ht => ?_,
        fun ht => ?_, fun ht => ?_, fun ht => ?_⟩ <;>
      simp [bson_get_string, bson_get_int32, bson_get_int64, bson_get_double,
        bson_get_decimal128, bson_get_datetime, bson_get_binary, _get_bson_iter, h, ht]

/-- Witness for C1: an unresolved path answers NULL for int32, and a
resolved int32 element answers NULL when asked for as a string. -/
theorem typed_accessors_absent_witness :
    bson_get_int32 (.valid exDoc) "zzz" = .ok none ∧
    bson_get_string (.valid exDoc) "a" = .ok none :=
  ⟨((typed_accessors_absent exDoc "zzz" (.int32 0)).1 rfl).2.1,
   ((typed_accessors_absent exDoc "a" (.int32 7)).2 rfl).1 (by decide)⟩

/-- C8: on a path resolving to a Binary element the accessor returns
exactly the payload bytes; the subtype never appears in the result (the
conclusion is the same for every subtype value). -/
theorem get_binary_payload (fs : BsonFields) (dotpath : String)
    (st : Nat) (pl : List Nat)
    (h : resolve fs dotpath = some (.binary st pl)) :
    bson_get_binary (.valid fs) dotpath = .ok (some pl) := by
  simp [bson_get_binary, _get_bson_iter, h, tagOf]

/-- Witness for C8: the same payload under two different subtypes
extracts to the same bytes. -/
theorem get_binary_payload_witness :
    bson_get_binary (.valid exBin0) "b" = .ok (some [1, 2, 3]) ∧
    bson_get_binary (.valid exBin4) "b" = .ok (some [1, 2, 3]) :=
  ⟨get_binary_payload exBin0 "b" 0 [1, 2, 3] rfl,
   get_binary_payload exBin4 "b" 4 [1, 2, 3] rfl⟩

/-- Helper: the digit list of n has at most k digits when n < 10 ^ k
(given enough fuel). -/
theorem digitsRevFuel_length (fuel : Nat) : ∀ n k : Nat, n ≤ fuel → n < 10 ^ k →
    (digitsRevFuel fuel n).length ≤ k := by
  induction fuel with
  | zero =>
    intro n k _ _
    simp [digitsRevFuel]
  | succ f ih =>
    intro n k hn hk
    cases n with
    | zero => simp [digitsRevFuel]
    | succ m =>
      cases k with
      | zero =>
        rw [pow_zero] at hk
        omega
      | succ j =>
        simp only [digitsRevFuel, List.length_cons]
        have h1 : (m + 1) / 10 ≤ f := by omega
        have h2 : (m + 1) / 10 < 10 ^ j := by
          rw [pow_succ] at hk
          omega
        have h3 := ih ((m + 1) / 10) j h1 h2
        omega

/-- Helper: natChars prints at most k characters for n < 10 ^ k, k at
least 1. -/
theorem natChars_length (n k : Nat) (h : n < 10 ^ k) (hk : 1 ≤ k) :
    (natChars n).length ≤ k := by
  unfold natChars
  split_ifs
  · simpa
  · rw [List.length_reverse]
    exact digitsRevFuel_length n n k le_rfl h

/-- C9: extracting a Decimal128 element goes through the canonical
decimal string (bounded to 43 characters including the terminator) and
hands that string to the host numeric decoder numeric_in; the result is
exactly the numeric_in image of the string, so no direct binary decode
takes place.  The hypotheses bound the decoded value to the decimal128
domain (34 coefficient digits, exponent between -6176 and 6111). -/
theorem get_decimal128_string_bridge (fs : BsonFields) (dotpath : String)
    (sg : Bool) (c : Nat) (e : Int)
    (h : resolve fs dotpath = some (.decimal128 sg c e))
    (hc : c < 10 ^ 34) (he1 : -6176 ≤ e) (he2 : e ≤ 6111) :
    bson_get_decimal128 (.valid fs) dotpath =
      .ok (some (numeric_in (bson_decimal128_to_string sg c e))) ∧
    (bson_decimal128_to_string sg c e).length + 1 ≤ 43 := by
  constructor
  · simp [bson_get_decimal128, _get_bson_iter, h, tagOf]
  · have hcoeff : (natChars c).length ≤ 34 := natChars_length c 34 hc (by norm_num)
    have habs : e.natAbs < 10 ^ 4 := by
      have h4 : (10 : Nat) ^ 4 = 10000 := by norm_num
      omega
    have hexp : (natChars e.natAbs).length ≤ 4 := natChars_length e.natAbs 4 habs (by norm_num)
    have hlen : (bson_decimal128_to_string sg c e).length =
        ((if sg then ['-'] else []) ++ natChars c ++ ['E'] ++
          (if e < 0 then ['-'] else ['+']) ++ natChars e.natAbs).length := rfl
    rw [hlen]
    split_ifs <;>
      simp only [List.length_append, List.length_cons, List.length_nil] <;> omega

/-- Witness for C9 at the value -1.5 (sign true, coefficient 15,
exponent -1). -/
theorem get_decimal128_string_bridge_witness :
    bson_get_decimal128 (.valid exDec) "n" =
      .ok (some (numeric_in (bson_decimal128_to_string true 15 (-1)))) ∧
    bson_decimal128_to_string true 15 (-1) = "-15E-1" :=
  ⟨(get_decimal128_string_bridge exDec "n" true 15 (-1) rfl (by norm_num)
      (by norm_num) (by norm_num)).1,
   by decide⟩

/-- C10: bson_get_bson returns the embedded subdocument when the path
resolves to a Document, the embedded index-keyed array document when it
resolves to an Array, and SQL NULL (never an error, never a wrapped
scalar) for every other resolved tag and for an unresolved path. -/
theorem get_bson_subdocument (fs : BsonFields) (dotpath : String)
    (sub : BsonFields) (es : BsonElems) (v : BsonValue) :
    (resolve fs dotpath = some (.document sub) →
      bson_get_bson (.valid fs) dotpath = .ok (some sub)) ∧
    (resolve fs dotpath = some (.array es) →
      bson_get_bson (.valid fs) dotpath = .ok (some (elemsToFields 0 es))) ∧
    (resolve fs dotpath = some v → tagOf v ≠ 3 → tagOf v ≠ 4 →
      bson_get_bson (.valid fs) dotpath = .ok none) ∧
    (resolve fs dotpath = none →
      bson_get_bson (.valid fs) dotpath = .ok none) := by
  refine ⟨fun h => ?_, fun h => ?_, fun h h3 h4 => ?_, fun h => ?_⟩
  · simp [bson_get_bson, h]
  · simp [bson_get_bson, h]
  · cases v <;> simp_all [bson_get_bson, tagOf]
  · simp [bson_get_bson, h]

/-- Witness for C10: the embedded document, the embedded array as an
index-keyed document, and a scalar path answering NULL. -/
theorem get_bson_subdocument_witness :
    bson_get_bson (.valid exSub) "o" = .ok (some (.cons "i" (.int32 1) .nil)) ∧
    bson_get_bson (.valid exSub) "arr" =
      .ok (some (elemsToFields 0 (.cons (.int32 10) (.cons (.int32 20) .nil)))) ∧
    bson_get_bson (.valid exSub) "o.i" = .ok none :=
  ⟨(get_bson_subdocument exSub "o" (.cons "i" (.int32 1) .nil) .nil (.int32 0)).1 rfl,
   (get_bson_subdocument exSub "arr" .nil (.cons (.int32 10) (.cons (.int32 20) .nil))
      (.int32 0)).2.1 rfl,
   (get_bson_subdocument exSub "o.i" .nil .nil (.int32 1)).2.2.1 rfl (by decide) (by decide)⟩

/-- Helper: icmp of a value with itself is eq. -/
theorem icmp_self (a : Int) : icmp a a = .eq := by
  simp [icmp]

/-- Helper: icmp answers swap under argument exchange. -/
theorem icmp_swap (a b : Int) : (icmp a b).swap = icmp b a := by
  unfold icmp
  split_ifs <;> first | rfl | omega

/-- Helper: an eq answer from icmp means the values are equal. -/
theorem icmp_eq_eq {a b : Int} (h : icmp a b = .eq) : a = b := by
  unfold icmp at h
  split_ifs at h
  omega

/-- Helper: a lt answer from icmp means strictly less. -/
theorem icmp_lt_lt {a b : Int} (h : icmp a b = .lt) : a < b := by
  unfold icmp at h
  split_ifs at h
  omega

/-- Helper: strictly less gives a lt answer from icmp. -/
theorem icmp_of_lt {a b : Int} (h : a < b) : icmp a b = .lt := by
  unfold icmp
  rw [if_pos h]

/-- Helper: lexCmp of a sequence with itself is eq. -/
theorem lexCmp_self (l : List Int) : lexCmp l l = .eq := by
  induction l with
  | nil => rfl
  | cons a as ih => simp [lexCmp, icmp_self, ih]

/-- Helper: lexCmp answers swap under argument exchange. -/
theorem lexCmp_swap (x : List Int) : ∀ y : List Int, (lexCmp x y).swap = lexCmp y x := by
  induction x with
  | nil =>
    intro y
    cases y <;> rfl
  | cons a as ih =>
    intro y
    cases y with
    | nil => rfl
    | cons b bs =>
      simp only [lexCmp]
      cases h : icmp a b with
      | lt =>
        have hba : icmp b a = .gt := by rw [← icmp_swap, h]; rfl
        simp only [h, hba]
        rfl
      | eq =>
        have hba : icmp b a = .eq := by rw [← icmp_swap, h]; rfl
        simp only [h, hba]
        exact ih bs
      | gt =>
        have hba : icmp b a = .lt := by rw [← icmp_swap, h]; rfl
        simp only [h, hba]
        rfl

/-- Helper: lexCmp lt answers chain transitively. -/
theorem lexCmp_lt_trans (x : List Int) : ∀ y z : List Int,
    lexCmp x y = .lt → lexCmp y z = .lt → lexCmp x z = .lt := by
  induction x with
  | nil =>
    intro y z h1 h2
    cases z with
    | nil =>
      cases y with
      | nil => simp [lexCmp] at h1
      | cons b bs => simp [lexCmp] at h2
    | cons c cs => rfl
  | cons a as ih =>
    intro y z h1 h2
    cases y with
    | nil => simp [lexCmp] at h1
    | cons b bs =>
      cases z with
      | nil => simp [lexCmp] at h2
      | cons c cs =>
        simp only [lexCmp] at h1 h2 ⊢
        cases hab : icmp a b with
        | gt => simp [hab] at h1
        | lt =>
          cases hbc : icmp b c with
          | gt => simp [hbc] at h2
          | lt =>
            have hac : icmp a c = .lt :=
              icmp_of_lt (lt_trans (icmp_lt_lt hab) (icmp_lt_lt hbc))
            simp [hac]
          | eq =>
            have hbceq : b = c := icmp_eq_eq hbc
            subst hbceq
            simp [hab]
        | eq =>
          have habeq : a = b := icmp_eq_eq hab
          subst habeq
          simp only [hab] at h1
          have h1lex : lexCmp as bs = .lt := h1
          cases hbc : icmp a c with
          | gt => simp [hbc] at h2
          | lt => rfl
          | eq =>
            simp only [hbc] at h2
            have h2lex : lexCmp bs cs = .lt := h2
            exact ih bs cs h1lex h2lex

/-- C7: reflexivity of byte equality, reflexivity of the comparison
(the equal answer on identical documents), antisymmetry (a greater
answer one way is exactly a less answer the other way), and
transitivity of the strict order. -/
theorem compare_order_and_equality_laws :
    (∀ d : List Nat, bson_binary_equal d d = true) ∧
    (∀ d : BsonFields, pgbson_compare d d = .eq) ∧
    (∀ a b : BsonFields, pgbson_compare a b = .gt ↔ pgbson_compare b a = .lt) ∧
    (∀ a b c : BsonFields, pgbson_compare a b = .lt → pgbson_compare b c = .lt →
      pgbson_compare a c = .lt) := by
  refine ⟨fun d => by simp [bson_binary_equal], fun d => lexCmp_self _, fun a b => ?_,
    fun a b c h1 h2 => lexCmp_lt_trans _ _ _ h1 h2⟩
  unfold pgbson_compare bson_compare
  rw [← lexCmp_swap (encF a) (encF b)]
  cases lexCmp (encF a) (encF b) <;> decide

/-- Witness for C7: transitivity and antisymmetry applied at three
concrete documents ordered by their element type tags. -/
theorem compare_order_and_equality_laws_witness :
    pgbson_compare cmpA cmpC = .lt ∧ pgbson_compare cmpA cmpB = .lt :=
  ⟨compare_order_and_equality_laws.2.2.2 cmpA cmpB cmpC (by decide) (by decide),
   (compare_order_and_equality_laws.2.2.1 cmpB cmpA).mp (by decide)⟩
